import Mathlib

/-!
Verification of the price-history reconciliation and bill-ledger posting
logic of the `friend_of_restaurant` CSV importers.

The development shallowly embeds the three Python source files
(`script/db_connection.py`, `script/import/import_product_list.py`,
`script/import/import_bill.py`) as pure Lean functions:

* exact decimals (`decimal.Decimal`) become `ℚ`;
* timestamps (`datetime`) become `Nat` (only their linear order matters);
* the relational store becomes explicit lists of rows threaded through the
  importers;
* the transactional connection becomes a `Conn` record with a committed
  snapshot and a pending state, so commit/rollback/close are explicit.

Each definition carries a doc comment naming the source function it embeds.
-/

namespace FriendOfRestaurant

/-! ## Python primitives used by the sources -/

/-- Python's `str.strip()`: drop leading and trailing whitespace. -/
def pyStrip (s : String) : String :=
  String.mk
    (((s.toList.dropWhile Char.isWhitespace).reverse.dropWhile
      Char.isWhitespace).reverse)

/-- Numeric value of a list of decimal digit characters, most significant
first (the usual positional evaluation). -/
def digitsVal (l : List Char) : Nat :=
  l.foldl (fun a c => 10 * a + (c.toNat - 48)) 0

/-- Split a character list at the first `e`/`E`, returning the mantissa
characters and, when an exponent marker is present, the characters after it. -/
def splitAtExpMarker : List Char → List Char × Option (List Char)
  | [] => ([], none)
  | c :: t =>
    if c = 'e' ∨ c = 'E' then ([], some t)
    else
      let r := splitAtExpMarker t
      (c :: r.1, r.2)

/-- Parse the mantissa part of a decimal numeric string: `digits`,
`digits.digits`, `digits.` or `.digits` (at least one digit overall). -/
def parseMantissa (l : List Char) : Option ℚ :=
  let intPart := l.takeWhile Char.isDigit
  let rest := l.dropWhile Char.isDigit
  match rest with
  | [] => if intPart.isEmpty then none else some (digitsVal intPart : ℚ)
  | '.' :: frac =>
    if frac.all Char.isDigit ∧ (intPart ≠ [] ∨ frac ≠ []) then
      some ((digitsVal intPart : ℚ) + (digitsVal frac : ℚ) / (10 : ℚ) ^ frac.length)
    else none
  | _ => none

/-- Parse the exponent part of a decimal numeric string: an optional sign
followed by at least one digit. -/
def parseExpPart (l : List Char) : Option ℤ :=
  let sgn : ℤ × List Char :=
    match l with
    | '+' :: t => (1, t)
    | '-' :: t => (-1, t)
    | t => (1, t)
  if sgn.2 ≠ [] ∧ sgn.2.all Char.isDigit then
    some (sgn.1 * (digitsVal sgn.2 : ℤ))
  else none

/-- The finite-value fragment of Python's `decimal.Decimal` string
constructor: optional sign, mantissa, optional exponent.  The special forms
(`NaN`, `Infinity`, underscore separators) are outside the numeric values the
importers ever rely on and are treated as parse failures. -/
def decFromString (s : String) : Option ℚ :=
  let cs := s.toList
  let sgn : ℚ × List Char :=
    match cs with
    | '+' :: t => (1, t)
    | '-' :: t => (-1, t)
    | t => (1, t)
  let me := splitAtExpMarker sgn.2
  match parseMantissa me.1 with
  | none => none
  | some mv =>
    match me.2 with
    | none => some (sgn.1 * mv)
    | some ec =>
      match parseExpPart ec with
      | none => none
      | some ev => some (sgn.1 * mv * (10 : ℚ) ^ ev)

/-- `str.replace(",", "")`: remove every comma. -/
def removeCommas (s : String) : String :=
  String.mk (s.toList.filter (fun c => c ≠ ','))

/-- `db_connection.parse_decimal`: parse a string to an exact decimal,
handling common formatting.  `None` or an empty string yields the default;
otherwise the value is stripped, commas are removed, and a failed `Decimal`
conversion (or an empty cleaned string) yields the default. -/
def parse_decimal (value : Option String) (dflt : ℚ) : ℚ :=
  match value with
  | none => dflt
  | some v =>
    if v = "" then dflt
    else
      let cleaned := removeCommas (pyStrip v)
      if cleaned = "" then dflt
      else (decFromString cleaned).getD dflt

/-- Digit groups of a Python integer literal: digits optionally separated by
single underscores (`1_2` is accepted, `_1`, `1_` and `1__2` are not). -/
def pyDigits : List Char → Bool
  | [] => false
  | [c] => c.isDigit
  | c :: '_' :: rest => c.isDigit && pyDigits rest
  | c :: rest => c.isDigit && pyDigits rest

/-- Python's `int(x)` on an optional string: `None` raises `TypeError`
(modelled as `none`), a string is trimmed and must be an optionally signed
digit group, otherwise `ValueError` (modelled as `none`). -/
def pyInt (v : Option String) : Option ℤ :=
  match v with
  | none => none
  | some s =>
    let t := (pyStrip s).toList
    let sgn : ℤ × List Char :=
      match t with
      | '+' :: r => (1, r)
      | '-' :: r => (-1, r)
      | r => (1, r)
    if pyDigits sgn.2 then
      some (sgn.1 * (digitsVal (sgn.2.filter (fun c => c ≠ '_')) : ℤ))
    else none

/-- Lookup in a Python dict built from an association list: a later binding
of the same key overwrites an earlier one. -/
def dictGet {α : Type} (m : List (String × α)) (k : String) : Option α :=
  m.foldl (fun acc kv => if kv.1 = k then some kv.2 else acc) none

/-! ## Product CSV reading (`import_product_list.read_product_csv`) -/

/-- A raw CSV: the header cells and, per data row, the cells keyed by their
column name exactly as `csv.DictReader` yields them. -/
structure Csv where
  header : List String
  rows : List (List (String × String))

/-- One validated product row as `read_product_csv` returns it: the
identifier already converted to an integer and the cost, when the cell was
present and non-blank, already parsed to a decimal. -/
structure ProductRow where
  product_id : ℤ
  product_name : Option String
  source : Option String
  unit : Option String
  cost_per_unit : Option ℚ
  deriving DecidableEq, Repr

/-- Row cleaning inside `read_product_csv`: each value is stripped and an
empty value becomes `None`. -/
def cleanCell (v : String) : Option String :=
  let t := pyStrip v
  if t = "" then none else some t

/-- The `row_data` dict built for one CSV row: keys stripped, values cleaned. -/
def rowDict (r : List (String × String)) : List (String × Option String) :=
  r.map (fun kv => (pyStrip kv.1, cleanCell kv.2))

/-- Per-row body of `read_product_csv`: validate `product_id` as an integer
(skipping the row on failure) and parse `cost_per_unit` when it is present
and truthy. -/
def parseProductRow (r : List (String × String)) : Option ProductRow :=
  match pyInt ((dictGet (rowDict r) "product_id").join) with
  | none => none
  | some pid =>
    some ⟨pid, (dictGet (rowDict r) "product_name").join,
      (dictGet (rowDict r) "source").join, (dictGet (rowDict r) "unit").join,
      match dictGet (rowDict r) "cost_per_unit" with
      | some (some s) => some (parse_decimal (some s) 0)
      | _ => none⟩

/-- `sorted({"product_id", "product_name"})`. -/
def requiredProductCols : List String := ["product_id", "product_name"]

/-- `sorted(required_cols - header)` with the header cells stripped: the
required columns (already listed in sorted order) that the header lacks. -/
def missingCols (required header : List String) : List String :=
  required.filter (fun c => ¬ (header.map pyStrip).contains c)

/-- `import_product_list.read_product_csv`: fail when the header is missing
or lacks a required column (the message enumerating the sorted missing
names), otherwise return the validated rows, silently dropping rows whose
`product_id` is not an integer. -/
def read_product_csv (csv : Csv) : Except String (List ProductRow) :=
  if csv.header = [] then .error "CSV has no header row"
  else if missingCols requiredProductCols csv.header ≠ [] then
    .error ("CSV missing required columns: " ++
      String.intercalate ", " (missingCols requiredProductCols csv.header))
  else
    .ok (csv.rows.filterMap parseProductRow)

/-! ## Product and price store (`product`, `product_price` tables) -/

/-- A row of the `product` table. -/
structure Product where
  product_id : ℤ
  product_name : Option String
  source : Option String
  unit : Option String
  deriving DecidableEq, Repr

/-- A row of the `product_price` table. -/
structure PriceObservation where
  product_id : ℤ
  cost_per_unit : ℚ
  created_when : ℕ
  deriving DecidableEq, Repr

/-- The store state touched by the product importer. -/
structure ProductDB where
  products : List Product
  prices : List PriceObservation
  deriving DecidableEq, Repr

/-- `import_product_list.upsert_product`: `INSERT ... ON CONFLICT
(product_id) DO UPDATE` — replace the row with the same identifier, or
append a new row. -/
def upsert_product (tbl : List Product) (p : Product) : List Product :=
  if tbl.any (fun q => q.product_id == p.product_id) then
    tbl.map (fun q => if q.product_id == p.product_id then p else q)
  else tbl ++ [p]

/-- The `WHERE product_id = %s AND created_when = %s` condition of
`insert_product_price`. -/
def matchKey (pid : ℤ) (ts : ℕ) (o : PriceObservation) : Bool :=
  o.product_id == pid && o.created_when == ts

/-- The effect of `insert_product_price`'s `UPDATE product_price SET
cost_per_unit` on one stored row: rows matching the key get the new cost,
others are untouched. -/
def overwriteCost (pid : ℤ) (cost : ℚ) (ts : ℕ) (r : PriceObservation) :
    PriceObservation :=
  if matchKey pid ts r then { r with cost_per_unit := cost } else r

/-- `import_product_list.insert_product_price`: look up the observation at
exactly (`product_id`, `created_when`); overwrite its cost in place when it
differs (returning `true`), do nothing when it matches (returning `false`),
and insert a fresh row when none exists (returning `true`). -/
def insert_product_price (tbl : List PriceObservation) (pid : ℤ) (cost : ℚ)
    (ts : ℕ) : Bool × List PriceObservation :=
  match tbl.find? (matchKey pid ts) with
  | some o =>
    if o.cost_per_unit ≠ cost then (true, tbl.map (overwriteCost pid cost ts))
    else (false, tbl)
  | none => (true, tbl ++ [⟨pid, cost, ts⟩])

/-- One step of scanning for the row with the greatest `created_when`
(the row `ORDER BY created_when DESC LIMIT 1` would return). -/
def latestStep (acc : Option PriceObservation) (o : PriceObservation) :
    Option PriceObservation :=
  match acc with
  | none => some o
  | some b => if o.created_when > b.created_when then some o else some b

/-- `import_product_list.get_latest_product_price`: the cost of the
product's observation with the greatest timestamp (`ORDER BY created_when
DESC LIMIT 1`), if any. -/
def get_latest_product_price (tbl : List PriceObservation) (pid : ℤ) : Option ℚ :=
  ((tbl.filter (fun o => o.product_id == pid)).foldl latestStep none).map
    (fun o => o.cost_per_unit)

/-! ## Price reconciliation and product import
(`import_product_list.import_product_csv`) -/

/-- What the price-handling block of `import_product_csv` reports for one
row: `inserted` and `updated` increment the respective counters, `unchanged`
is printed when the latest price already equals the new one, `silent` is the
branch where `insert_product_price` returns `False` (nothing is printed and
no counter moves), and `skipped` means the row carried no cost so the block
never ran. -/
inductive PriceSignal
  | inserted
  | updated
  | unchanged
  | silent
  | skipped
  deriving DecidableEq, Repr

/-- The price-handling block of `import_product_csv` for one product row
that carries a cost: fetch the latest price; when it is absent or differs
from the new price, call `insert_product_price` and classify the outcome by
whether a latest price existed; otherwise report the price unchanged. -/
def reconcile_price (tbl : List PriceObservation) (pid : ℤ) (cost : ℚ)
    (ts : ℕ) : PriceSignal × List PriceObservation :=
  let current := get_latest_product_price tbl pid
  if current = none ∨ current ≠ some cost then
    let r := insert_product_price tbl pid cost ts
    if r.1 then
      if current = none then (.inserted, r.2) else (.updated, r.2)
    else (.silent, r.2)
  else (.unchanged, tbl)

/-- The body of `import_product_csv`'s loop for one validated row: upsert
the product, then run the price-handling block when prices are enabled and
the row carries a cost. -/
def import_row (update_prices : Bool) (ts : ℕ) (db : ProductDB)
    (row : ProductRow) : PriceSignal × ProductDB :=
  let products := upsert_product db.products
    ⟨row.product_id, row.product_name, row.source, row.unit⟩
  match update_prices, row.cost_per_unit with
  | true, some c =>
    let r := reconcile_price db.prices row.product_id c ts
    (r.1, ⟨products, r.2⟩)
  | _, _ => (.skipped, ⟨products, db.prices⟩)

/-- `import_product_list.import_product_csv` as a state transformer on the
store: read and validate the CSV (an invalid header aborts before the
connection is opened, leaving the store untouched), return early when no
valid rows remain, otherwise process every row and commit.  The result pairs
the run outcome (the per-row signals, or the raised error message) with the
committed store state. -/
def import_product_csv (csv : Csv) (update_prices : Bool) (ts : ℕ)
    (db : ProductDB) : Except String (List PriceSignal) × ProductDB :=
  match read_product_csv csv with
  | .error e => (.error e, db)
  | .ok [] => (.ok [], db)
  | .ok rows =>
    let r := rows.foldl
      (fun (acc : ProductDB × List PriceSignal) row =>
        let s := import_row update_prices ts acc.1 row
        (s.2, acc.2 ++ [s.1]))
      (db, [])
    (.ok r.2, r.1)

/-! ## Bill CSV reading and posting (`import_bill.py`) -/

/-- `sorted({"product_name", "quantity", "product_price", "tax_amount",
"total"})`. -/
def billRequiredCols : List String :=
  ["product_name", "product_price", "quantity", "tax_amount", "total"]

/-- `import_bill.read_bill_csv`: fail when the header is missing or lacks a
required column, otherwise return the rows with every string value
stripped (keys are kept as the reader yields them). -/
def read_bill_csv (csv : Csv) : Except String (List (List (String × String))) :=
  if csv.header = [] then .error "CSV has no header row"
  else if missingCols billRequiredCols csv.header ≠ [] then
    .error ("CSV missing required columns: " ++
      String.intercalate ", " (missingCols billRequiredCols csv.header))
  else .ok (csv.rows.map (fun r => r.map (fun kv => (kv.1, pyStrip kv.2))))

/-- One entry of `prepared_items` in `import_bill`. -/
structure PreparedItem where
  product_name : Option String
  quantity : ℚ
  unit_price : ℚ
  line_total : ℚ
  deriving DecidableEq, Repr

/-- One iteration of `import_bill`'s preparation loop: normalize the
numeric cells of a row with `parse_decimal`, accumulate
`subtotal += quantity * unit_price` and `tax_sum += tax_amount`, and append
the prepared item (which keeps the row's own `total` as its line total). -/
def prepareStep (acc : ℚ × ℚ × List PreparedItem)
    (r : List (String × String)) : ℚ × ℚ × List PreparedItem :=
  (acc.1 + parse_decimal (dictGet r "quantity") 0 *
      parse_decimal (dictGet r "product_price") 0,
    acc.2.1 + parse_decimal (dictGet r "tax_amount") 0,
    acc.2.2 ++ [⟨dictGet r "product_name",
      parse_decimal (dictGet r "quantity") 0,
      parse_decimal (dictGet r "product_price") 0,
      parse_decimal (dictGet r "total") 0⟩])

/-- The line-item preparation loop of `import_bill`: fold `prepareStep`
over the rows.  Returns (`subtotal`, `tax_sum`, `prepared_items`). -/
def prepare_bill_items (rows : List (List (String × String))) :
    ℚ × ℚ × List PreparedItem :=
  rows.foldl prepareStep (0, 0, [])

/-- A row of the `bill` table (the generated `bill_id` is the list key in
`BillDB`). -/
structure Bill where
  bill_number : Option String
  vendor_name : Option String
  source : String
  bill_date : Option String
  currency : String
  subtotal_amount : ℚ
  tax_amount : ℚ
  shipping_amount : ℚ
  total_amount : ℚ
  notes : Option String
  deriving DecidableEq, Repr

/-- A row of the `bill_item` table. -/
structure BillItem where
  bill_id : ℕ
  product_id : Option ℤ
  product_name : Option String
  quantity : ℚ
  unit : Option String
  unit_price : ℚ
  line_total : ℚ
  deriving DecidableEq, Repr

/-- The store state touched by the bill importer; `next_bill_id` models the
store-generated surrogate key. -/
structure BillDB where
  next_bill_id : ℕ
  bills : List (ℕ × Bill)
  bill_items : List BillItem
  deriving DecidableEq, Repr

/-- `import_bill.import_bill` on the fault-free path: read and validate the
CSV (an invalid header aborts before the connection is opened), prepare the
items, compute `total_amount = subtotal + tax_sum + shipping_amount`, insert
the bill header (obtaining its generated identifier) and then one item row
per input row referencing it.  The result pairs the run outcome (item count
and the three totals, or the raised error message) with the committed store
state. -/
def import_bill (csv : Csv) (csv_path : String) (vendor_name notes : Option String)
    (shipping_amount : ℚ) (currency : String) (bill_number : Option String)
    (bill_date : Option String) (source : Option String) (db : BillDB) :
    Except String (ℕ × ℚ × ℚ × ℚ) × BillDB :=
  match read_bill_csv csv with
  | .error e => (.error e, db)
  | .ok rows =>
    let p := prepare_bill_items rows
    let subtotal := p.1
    let tax_sum := p.2.1
    let prepared := p.2.2
    let total_amount := subtotal + tax_sum + shipping_amount
    let src :=
      match source with
      | some s => if s = "" then csv_path else s
      | none => csv_path
    let bid := db.next_bill_id
    let bill : Bill := ⟨bill_number, vendor_name, src, bill_date, currency,
      subtotal, tax_sum, shipping_amount, total_amount, notes⟩
    let items := prepared.map (fun it =>
      BillItem.mk bid none it.product_name it.quantity none it.unit_price
        it.line_total)
    (.ok (prepared.length, subtotal, tax_sum, total_amount),
      ⟨bid + 1, db.bills ++ [(bid, bill)], db.bill_items ++ items⟩)

/-! ## Transaction orchestration

Both importers wrap their store mutations in one psycopg2 transaction:
`with conn:` buffers every statement, commits on normal exit and rolls back
on an exception, which is re-raised; a `finally: conn.close()` releases the
connection on every path.  The model makes the connection state explicit
and lets a fault oracle decide which statement (if any) raises. -/

/-- A store connection: the durable committed snapshot, the pending state of
the open transaction, and whether the connection has been closed. -/
structure Conn (σ : Type) where
  committed : σ
  pending : σ
  closed : Bool
  deriving Repr

/-- `get_connection()`: a fresh connection over the current store state. -/
def openConn {σ : Type} (db : σ) : Conn σ :=
  ⟨db, db, false⟩

/-- `cursor.execute` of a mutating statement: only the pending transaction
state changes. -/
def execOp {σ : Type} (c : Conn σ) (op : σ → σ) : Conn σ :=
  { c with pending := op c.pending }

/-- `conn.commit()`: publish the pending state. -/
def commitConn {σ : Type} (c : Conn σ) : Conn σ :=
  { c with committed := c.pending }

/-- `conn.rollback()`: discard the pending state. -/
def rollbackConn {σ : Type} (c : Conn σ) : Conn σ :=
  { c with pending := c.committed }

/-- `conn.close()`. -/
def closeConn {σ : Type} (c : Conn σ) : Conn σ :=
  { c with closed := true }

/-- Run the body's store statements in order; the fault oracle says whether
the statement at a given index raises.  Returns the connection as it stands
and `true` when the body completed, `false` when a statement raised. -/
def execBody {σ : Type} (fault : ℕ → Bool) :
    Conn σ → ℕ → List (σ → σ) → Conn σ × Bool
  | c, _, [] => (c, true)
  | c, k, op :: rest =>
    if fault k then (c, false)
    else execBody fault (execOp c op) (k + 1) rest

/-- The shared transaction shape of `import_bill` and `import_product_csv`:
open a connection, run the body; on success commit, on a raised store error
roll back and re-raise; close the connection on either path.  Returns
whether the run succeeded together with the final connection. -/
def run_import_tx {σ : Type} (db : σ) (ops : List (σ → σ))
    (fault : ℕ → Bool) : Bool × Conn σ :=
  let r := execBody fault (openConn db) 0 ops
  if r.2 then (true, closeConn (commitConn r.1))
  else (false, closeConn (rollbackConn r.1))

/-- The bill header `INSERT ... RETURNING bill_id` statement of
`import_bill`. -/
def billHeaderOp (bill : Bill) (db : BillDB) : BillDB :=
  ⟨db.next_bill_id + 1, db.bills ++ [(db.next_bill_id, bill)], db.bill_items⟩

/-- One `bill_item` insert statement of `import_bill`, referencing the
identifier the header insert returned. -/
def billItemOp (it : PreparedItem) (db : BillDB) : BillDB :=
  ⟨db.next_bill_id, db.bills,
    db.bill_items ++ [BillItem.mk (db.next_bill_id - 1) none it.product_name
      it.quantity none it.unit_price it.line_total]⟩

/-- The store statements `import_bill` issues inside its transaction: the
header insert followed by one `bill_item` insert per prepared item, in
input order. -/
def billOps (bill : Bill) (prepared : List PreparedItem) :
    List (BillDB → BillDB) :=
  billHeaderOp bill :: prepared.map billItemOp

/-- The `upsert_product` statement `import_product_csv` issues for one
validated row. -/
def productUpsertOp (row : ProductRow) (db : ProductDB) : ProductDB :=
  ⟨upsert_product db.products
    ⟨row.product_id, row.product_name, row.source, row.unit⟩, db.prices⟩

/-- The price-block statements `import_product_csv` issues for one row
carrying a cost: the latest-price lookup followed by
`insert_product_price`, whose net effect on the store is
`reconcile_price`. -/
def productPriceOp (pid : ℤ) (c : ℚ) (ts : ℕ) (db : ProductDB) : ProductDB :=
  ⟨db.products, (reconcile_price db.prices pid c ts).2⟩

/-- The store statements `import_product_csv` issues for one validated row
inside its transaction: the product upsert and, when prices are enabled and
the row carries a cost, the price block. -/
def productRowOps (update_prices : Bool) (ts : ℕ) (row : ProductRow) :
    List (ProductDB → ProductDB) :=
  match update_prices, row.cost_per_unit with
  | true, some c => [productUpsertOp row, productPriceOp row.product_id c ts]
  | _, _ => [productUpsertOp row]

/-- The store statements of a whole product-import run's transaction body:
the per-row statements in row order. -/
def productOps (update_prices : Bool) (ts : ℕ) (rows : List ProductRow) :
    List (ProductDB → ProductDB) :=
  rows.flatMap (productRowOps update_prices ts)

/-! ## Concrete fixtures used to exercise the importers -/

/-- A product CSV whose header lacks both required columns. -/
def headerlessProductCsv : Csv :=
  ⟨["name"], [[("name", "beef")]]⟩

/-- A bill CSV whose header lacks every required column. -/
def headerlessBillCsv : Csv :=
  ⟨["item"], [[("item", "beef")]]⟩

/-- A product CSV whose first row has a non-integer identifier and whose
second row is valid. -/
def badIdCsv : Csv :=
  ⟨["product_id", "product_name"],
    [[("product_id", "abc"), ("product_name", "x")],
     [("product_id", "7"), ("product_name", "y")]]⟩

/-- The bill CSV of the specification's posting example: items
`(2, 10.00, 1.00, 20.00)` and `(1, 5.00, 0.50, 5.00)`. -/
def exampleBillCsv : Csv :=
  ⟨["product_name", "quantity", "product_price", "tax_amount", "total"],
    [[("product_name", "beef"), ("quantity", "2"), ("product_price", "10.00"),
      ("tax_amount", "1.00"), ("total", "20.00")],
     [("product_name", "salt"), ("quantity", "1"), ("product_price", "5.00"),
      ("tax_amount", "0.50"), ("total", "5.00")]]⟩

/-- A product row whose cost cell is present and non-blank but not numeric. -/
def malformedCostRow : List (String × String) :=
  [("product_id", "7"), ("product_name", "x"), ("cost_per_unit", "garbage")]

/-- The derived subtotal of the example bill: `Σ quantity * unit_price`. -/
def exampleSubtotal : ℚ :=
  (exampleBillCsv.rows.map (fun r => parse_decimal (dictGet r "quantity") 0 *
    parse_decimal (dictGet r "product_price") 0)).sum

/-- The derived tax total of the example bill: `Σ tax_amount`. -/
def exampleTaxSum : ℚ :=
  (exampleBillCsv.rows.map (fun r => parse_decimal (dictGet r "tax_amount") 0)).sum

/-! ## Helper lemmas -/

/-- When `Decimal` conversion fails on the cleaned text, `parse_decimal`
falls back to the default. -/
theorem parse_decimal_default_of_fail (s : String) (d : ℚ)
    (h : decFromString (removeCommas (pyStrip s)) = none) :
    parse_decimal (some s) d = d := by
  unfold parse_decimal
  by_cases h1 : s = "" <;> simp [h1, h]

/-! ## C6: the decimal normalizer contract -/

/-- C6: `parse_decimal` returns the default on `None`, on an empty string
and on text that is non-numeric after cleaning, never fails, and parses
`"1,234.50"` to `1234.50`. -/
theorem parse_decimal_contract (d : ℚ) (s : String) :
    parse_decimal (some "1,234.50") d = 1234.50 ∧
    parse_decimal (some "") d = d ∧
    parse_decimal none d = d ∧
    parse_decimal (some "abc") d = d ∧
    (decFromString (removeCommas (pyStrip s)) = none → parse_decimal (some s) d = d) := by
  refine ⟨?_, by simp [parse_decimal], by simp [parse_decimal], ?_, ?_⟩
  · have h1 : removeCommas (pyStrip "1,234.50") = "1234.50" := by decide
    have h2 : decFromString "1234.50" =
        some (1 * ((digitsVal ['1', '2', '3', '4'] : ℚ) +
          (digitsVal ['5', '0'] : ℚ) / 10 ^ 2)) := rfl
    have h3 : (digitsVal ['1', '2', '3', '4'] : ℕ) = 1234 := by decide
    have h4 : (digitsVal ['5', '0'] : ℕ) = 50 := by decide
    simp [parse_decimal, h1, h2, h3, h4]
    norm_num
  · have h : decFromString (removeCommas (pyStrip "abc")) = none := by decide
    exact parse_decimal_default_of_fail "abc" d h
  · exact parse_decimal_default_of_fail s d

/-- Witness for C6 at the malformed input `"abc"` with default `7`. -/
theorem parse_decimal_contract_witness :
    decFromString (removeCommas (pyStrip "abc")) = none ∧
    parse_decimal (some "abc") 7 = 7 :=
  ⟨by decide, (parse_decimal_contract 7 "abc").2.2.2.2 (by decide)⟩

/-! ## C7: missing required columns abort the run -/

/-- C7: when the header of the input CSV lacks required columns, both
importers abort before any row is processed and before any store mutation
(the returned store state is the initial one), and the abort message
enumerates exactly the missing column names. -/
theorem missing_columns_abort
    (pcsv : Csv) (up : Bool) (ts : ℕ) (pdb : ProductDB)
    (bcsv : Csv) (path : String) (vn nts : Option String) (ship : ℚ)
    (cur : String) (bn bd bsrc : Option String) (bdb : BillDB)
    (hp1 : pcsv.header ≠ [])
    (hp2 : missingCols requiredProductCols pcsv.header ≠ [])
    (hb1 : bcsv.header ≠ [])
    (hb2 : missingCols billRequiredCols bcsv.header ≠ []) :
    import_product_csv pcsv up ts pdb =
      (.error ("CSV missing required columns: " ++ String.intercalate ", "
        (missingCols requiredProductCols pcsv.header)), pdb) ∧
    import_bill bcsv path vn nts ship cur bn bd bsrc bdb =
      (.error ("CSV missing required columns: " ++ String.intercalate ", "
        (missingCols billRequiredCols bcsv.header)), bdb) := by
  have hpr : read_product_csv pcsv =
      .error ("CSV missing required columns: " ++ String.intercalate ", "
        (missingCols requiredProductCols pcsv.header)) := by
    unfold read_product_csv
    rw [if_neg hp1, if_pos hp2]
  have hbr : read_bill_csv bcsv =
      .error ("CSV missing required columns: " ++ String.intercalate ", "
        (missingCols billRequiredCols bcsv.header)) := by
    unfold read_bill_csv
    rw [if_neg hb1, if_pos hb2]
  constructor
  · unfold import_product_csv
    rw [hpr]
  · unfold import_bill
    rw [hbr]

/-- Witness for C7 on concrete headerless CSVs. -/
theorem missing_columns_abort_witness :
    headerlessProductCsv.header ≠ [] ∧
    headerlessBillCsv.header ≠ [] ∧
    import_product_csv headerlessProductCsv true 0 ⟨[], []⟩ =
      (.error ("CSV missing required columns: " ++ String.intercalate ", "
        (missingCols requiredProductCols headerlessProductCsv.header)),
        ⟨[], []⟩) ∧
    import_bill headerlessBillCsv "f.csv" none none 0 "USD" none none none
        ⟨0, [], []⟩ =
      (.error ("CSV missing required columns: " ++ String.intercalate ", "
        (missingCols billRequiredCols headerlessBillCsv.header)),
        ⟨0, [], []⟩) ∧
    "CSV missing required columns: " ++ String.intercalate ", "
        (missingCols requiredProductCols headerlessProductCsv.header) =
      "CSV missing required columns: product_id, product_name" :=
  ⟨by decide, by decide,
    (missing_columns_abort headerlessProductCsv true 0 ⟨[], []⟩
      headerlessBillCsv "f.csv" none none 0 "USD" none none none ⟨0, [], []⟩
      (by decide) (by decide) (by decide) (by decide)).1,
    (missing_columns_abort headerlessProductCsv true 0 ⟨[], []⟩
      headerlessBillCsv "f.csv" none none 0 "USD" none none none ⟨0, [], []⟩
      (by decide) (by decide) (by decide) (by decide)).2,
    by decide⟩

/-! ## C8: non-integer product identifiers skip only their row -/

/-- C8: with a valid header the product reader always succeeds, returning
the rows that validate; a row whose `product_id` does not parse as an
integer validates to nothing, so it is excluded while every other row is
still processed. -/
theorem invalid_product_id_skipped (csv : Csv)
    (h1 : csv.header ≠ [])
    (h2 : missingCols requiredProductCols csv.header = []) :
    read_product_csv csv = .ok (csv.rows.filterMap parseProductRow) ∧
    ∀ r ∈ csv.rows,
      pyInt ((dictGet (rowDict r) "product_id").join) = none →
      parseProductRow r = none := by
  constructor
  · unfold read_product_csv
    rw [if_neg h1, if_neg (by simp [h2])]
  · intro r _ hbad
    unfold parseProductRow
    rw [hbad]

/-- Witness for C8: the bad-identifier row of `badIdCsv` is dropped and the
valid row survives. -/
theorem invalid_product_id_skipped_witness :
    badIdCsv.header ≠ [] ∧
    read_product_csv badIdCsv = .ok (badIdCsv.rows.filterMap parseProductRow) ∧
    badIdCsv.rows.filterMap parseProductRow =
      [⟨7, some "y", none, none, none⟩] :=
  ⟨by decide,
    (invalid_product_id_skipped badIdCsv (by decide) (by decide)).1,
    by decide⟩

/-! ## C9: rows without a cost leave the price history alone -/

/-- C9: a validated row carrying no cost makes `import_product_csv` upsert
the product but never call the price block, leaving the price history
untouched; and a blank or absent `cost_per_unit` cell is exactly what makes
the validated row carry no cost. -/
theorem blank_cost_no_reconciliation (up : Bool) (ts : ℕ) (db : ProductDB)
    (row : ProductRow) (h : row.cost_per_unit = none) :
    import_row up ts db row =
      (.skipped,
        ⟨upsert_product db.products
          ⟨row.product_id, row.product_name, row.source, row.unit⟩,
          db.prices⟩) ∧
    ∀ r pr, (dictGet (rowDict r) "cost_per_unit").join = none →
      parseProductRow r = some pr → pr.cost_per_unit = none := by
  constructor
  · cases up <;> simp [import_row, h]
  · intro r pr hc hpr
    simp only [parseProductRow] at hpr
    cases hpid : pyInt ((dictGet (rowDict r) "product_id").join) with
    | none => rw [hpid] at hpr; exact absurd hpr (by simp)
    | some pid =>
      rw [hpid] at hpr
      cases hdg : dictGet (rowDict r) "cost_per_unit" with
      | none =>
        rw [hdg] at hpr
        cases hpr
        rfl
      | some os =>
        cases os with
        | none =>
          rw [hdg] at hpr
          cases hpr
          rfl
        | some s =>
          rw [hdg] at hc
          exact absurd hc (by simp)

/-- Witness for C9 on a costless row over an empty store. -/
theorem blank_cost_no_reconciliation_witness :
    (⟨1, none, none, none, none⟩ : ProductRow).cost_per_unit = none ∧
    import_row true 0 ⟨[], []⟩ ⟨1, none, none, none, none⟩ =
      (.skipped, ⟨upsert_product [] ⟨1, none, none, none⟩, []⟩) :=
  ⟨rfl, (blank_cost_no_reconciliation true 0 ⟨[], []⟩
    ⟨1, none, none, none, none⟩ rfl).1⟩

/-! ## Reconciliation lemmas -/

/-- Overwriting a row's cost does not change which key it matches. -/
theorem matchKey_overwriteCost (pid : ℤ) (cost : ℚ) (ts : ℕ)
    (r : PriceObservation) :
    matchKey pid ts (overwriteCost pid cost ts r) = matchKey pid ts r := by
  unfold overwriteCost
  split <;> simp [matchKey] at *

/-- The scan for the newest observation never loses a row once it has one. -/
theorem latestStep_foldl_ne_none (ys : List PriceObservation) :
    ∀ b : PriceObservation, ys.foldl latestStep (some b) ≠ none := by
  induction ys with
  | nil => simp
  | cons y ys ih =>
    intro b
    rw [List.foldl_cons]
    by_cases hgt : y.created_when > b.created_when <;>
      simp [latestStep, hgt] <;> exact ih _

/-- A product that has a stored observation has a latest price. -/
theorem get_latest_ne_none_of_mem (tbl : List PriceObservation) (pid : ℤ)
    (o : PriceObservation) (ho : o ∈ tbl) (hp : o.product_id = pid) :
    get_latest_product_price tbl pid ≠ none := by
  unfold get_latest_product_price
  have hmem : o ∈ tbl.filter (fun x => x.product_id == pid) := by
    simp [List.mem_filter, ho, hp]
  rcases hft : tbl.filter (fun x => x.product_id == pid) with _ | ⟨x, xs⟩
  · rw [hft] at hmem
    cases hmem
  · rw [hft, List.foldl_cons]
    have h1 : latestStep none x = some x := rfl
    rw [h1]
    simp [latestStep_foldl_ne_none xs x]

/-- Appending a fresh key-matching row to a table with no key match makes
`find?` return exactly that row. -/
theorem find?_append_singleton {p : PriceObservation → Bool}
    (l : List PriceObservation) (x : PriceObservation)
    (hl : l.find? p = none) (hx : p x = true) :
    (l ++ [x]).find? p = some x := by
  rw [List.find?_append, hl]
  simp [List.find?, hx]

/-- The inserted observation matches its own key. -/
theorem matchKey_self (pid : ℤ) (cost : ℚ) (ts : ℕ) :
    matchKey pid ts ⟨pid, cost, ts⟩ = true := by
  simp [matchKey]

/-! ## C1: insertion when no exact timestamp match exists -/

/-- C1 as stated is false: over the single observation (product 1, cost 5,
time 1), reconciling (product 1, cost 5, time 2) finds no observation at
the exact timestamp, yet nothing is inserted and "unchanged" is signalled,
because the latest-price lookup gates the insert. -/
theorem latest_price_gates_insert_cex :
    (∀ o ∈ [(⟨1, 5, 1⟩ : PriceObservation)],
      ¬ (o.product_id = 1 ∧ o.created_when = 2)) ∧
    reconcile_price [⟨1, 5, 1⟩] 1 5 2 =
      (PriceSignal.unchanged, [⟨1, 5, 1⟩]) := by
  constructor
  · decide
  · decide

/-- C1 amended: when no observation matches the exact (product, timestamp)
key, the latest-price lookup gates the outcome: if the latest price equals
the observed cost nothing is inserted and "unchanged" is signalled;
otherwise a new row is appended, signalled "inserted" when the product had
no prior observation and "updated" when it had one. -/
theorem reconcile_without_exact_match (tbl : List PriceObservation) (pid : ℤ)
    (cost : ℚ) (ts : ℕ)
    (h : ∀ o ∈ tbl, ¬ (o.product_id = pid ∧ o.created_when = ts)) :
    reconcile_price tbl pid cost ts =
      if get_latest_product_price tbl pid = some cost then
        (PriceSignal.unchanged, tbl)
      else if get_latest_product_price tbl pid = none then
        (PriceSignal.inserted, tbl ++ [⟨pid, cost, ts⟩])
      else
        (PriceSignal.updated, tbl ++ [⟨pid, cost, ts⟩]) := by
  have hfind : tbl.find? (matchKey pid ts) = none := by
    rw [List.find?_eq_none]
    intro o ho
    have := h o ho
    simp [matchKey]
    intro hp
    intro hts
    exact this ⟨hp, hts⟩
  unfold reconcile_price insert_product_price
  rw [hfind]
  rcases hC : get_latest_product_price tbl pid with _ | c
  · simp
  · by_cases hc : c = cost
    · subst hc
      simp
    · simp [hc]

/-- Witness for C1 on an empty history: the insert happens and is
signalled "inserted". -/
theorem reconcile_without_exact_match_witness :
    (∀ o ∈ ([] : List PriceObservation),
      ¬ (o.product_id = 1 ∧ o.created_when = 0)) ∧
    reconcile_price [] 1 5 0 =
      (if get_latest_product_price [] 1 = some 5 then
        (PriceSignal.unchanged, [])
      else if get_latest_product_price [] 1 = none then
        (PriceSignal.inserted, [] ++ [⟨1, 5, 0⟩])
      else
        (PriceSignal.updated, [] ++ [⟨1, 5, 0⟩])) :=
  ⟨by simp, reconcile_without_exact_match [] 1 5 0 (by simp)⟩

/-! ## C2: correction in place at an exact timestamp match -/

/-- C2 as stated is false: with history [(product 1, cost 7, time 1),
(product 1, cost 5, time 2)], reconciling (product 1, cost 5, time 1) hits
an exact timestamp match whose cost differs, yet nothing is overwritten and
"unchanged" is signalled, because the latest price already equals the
observed cost. -/
theorem stale_correction_skipped_cex :
    (∃ o ∈ [(⟨1, 7, 1⟩ : PriceObservation), ⟨1, 5, 2⟩],
      o.product_id = 1 ∧ o.created_when = 1 ∧ o.cost_per_unit ≠ 5) ∧
    reconcile_price [⟨1, 7, 1⟩, ⟨1, 5, 2⟩] 1 5 1 =
      (PriceSignal.unchanged, [⟨1, 7, 1⟩, ⟨1, 5, 2⟩]) := by
  constructor
  · decide
  · decide

/-- C2 amended: when the exact-timestamp lookup finds an observation whose
cost differs from the observed cost and the product's latest price also
differs from the observed cost, the matching record is overwritten in
place, "updated" is signalled, and the number of stored observations is
unchanged. -/
theorem reconcile_corrects_in_place (tbl : List PriceObservation) (pid : ℤ)
    (cost : ℚ) (ts : ℕ) (o : PriceObservation)
    (hfind : tbl.find? (matchKey pid ts) = some o)
    (hcost : o.cost_per_unit ≠ cost)
    (hlatest : get_latest_product_price tbl pid ≠ some cost) :
    reconcile_price tbl pid cost ts =
      (PriceSignal.updated, tbl.map (overwriteCost pid cost ts)) ∧
    (tbl.map (overwriteCost pid cost ts)).length = tbl.length := by
  refine ⟨?_, List.length_map _ _⟩
  have hmem : o ∈ tbl := List.mem_of_find?_eq_some hfind
  have hkey : matchKey pid ts o = true := List.find?_some hfind
  have hpid : o.product_id = pid := by
    simp [matchKey] at hkey
    exact hkey.1
  have hne : get_latest_product_price tbl pid ≠ none :=
    get_latest_ne_none_of_mem tbl pid o hmem hpid
  unfold reconcile_price insert_product_price
  rw [hfind]
  simp [hcost, hlatest, hne]

/-- Witness for C2: history [(product 1, cost 7, time 1)], reconciling
(product 1, cost 5, time 1) overwrites the record in place. -/
theorem reconcile_corrects_in_place_witness :
    [(⟨1, 7, 1⟩ : PriceObservation)].find? (matchKey 1 1) = some ⟨1, 7, 1⟩ ∧
    (⟨1, 7, 1⟩ : PriceObservation).cost_per_unit ≠ 5 ∧
    reconcile_price [⟨1, 7, 1⟩] 1 5 1 =
      (PriceSignal.updated, [⟨1, 7, 1⟩].map (overwriteCost 1 5 1)) ∧
    ([(⟨1, 7, 1⟩ : PriceObservation)].map (overwriteCost 1 5 1)).length =
      [(⟨1, 7, 1⟩ : PriceObservation)].length :=
  ⟨by decide, by decide,
    (reconcile_corrects_in_place [⟨1, 7, 1⟩] 1 5 1 ⟨1, 7, 1⟩
      (by decide) (by decide) (by decide)).1,
    (reconcile_corrects_in_place [⟨1, 7, 1⟩] 1 5 1 ⟨1, 7, 1⟩
      (by decide) (by decide) (by decide)).2⟩

/-! ## C3: reconciling the same triple twice -/

/-- A reconciliation is a no-op when the latest price already equals the
cost or the exact-key lookup finds a record already carrying the cost; it
then signals "unchanged" or nothing at all. -/
theorem reconcile_noop_of_key_cost (t1 : List PriceObservation) (pid : ℤ)
    (cost : ℚ) (ts : ℕ)
    (h : get_latest_product_price t1 pid = some cost ∨
      ∃ o, t1.find? (matchKey pid ts) = some o ∧ o.cost_per_unit = cost) :
    (reconcile_price t1 pid cost ts).2 = t1 ∧
    ((reconcile_price t1 pid cost ts).1 = PriceSignal.unchanged ∨
      (reconcile_price t1 pid cost ts).1 = PriceSignal.silent) := by
  by_cases hB : get_latest_product_price t1 pid = some cost
  · unfold reconcile_price
    simp [hB]
  · rcases h with h | ⟨o, hf, hc⟩
    · exact absurd h hB
    · unfold reconcile_price insert_product_price
      rw [hf]
      simp [hB, hc]

/-- C3 as stated is false: starting from history [(product 1, cost 9,
time 2)], reconciling (product 1, cost 5, time 1) twice inserts once and
then does nothing, but the second call signals nothing at all rather than
"unchanged" (the history length is indeed unchanged). -/
theorem second_reconcile_not_unchanged_cex :
    (reconcile_price (reconcile_price [⟨1, 9, 2⟩] 1 5 1).2 1 5 1).1 =
      PriceSignal.silent ∧
    PriceSignal.silent ≠ PriceSignal.unchanged ∧
    (reconcile_price (reconcile_price [⟨1, 9, 2⟩] 1 5 1).2 1 5 1).2.length =
      (reconcile_price [⟨1, 9, 2⟩] 1 5 1).2.length := by
  refine ⟨?_, by decide, ?_⟩
  · decide
  · decide

/-- C3 amended: reconciling the same (product, timestamp, cost) triple
twice leaves the history after the second call identical to the history
after the first (so its length is unchanged), but the second call signals
"unchanged" only when the product's latest price equals the cost; otherwise
it signals nothing. -/
theorem reconcile_price_idempotent (tbl : List PriceObservation) (pid : ℤ)
    (cost : ℚ) (ts : ℕ) :
    (reconcile_price (reconcile_price tbl pid cost ts).2 pid cost ts).2 =
      (reconcile_price tbl pid cost ts).2 ∧
    ((reconcile_price (reconcile_price tbl pid cost ts).2 pid cost ts).1 =
        PriceSignal.unchanged ∨
      (reconcile_price (reconcile_price tbl pid cost ts).2 pid cost ts).1 =
        PriceSignal.silent) := by
  apply reconcile_noop_of_key_cost
  by_cases hA : get_latest_product_price tbl pid = some cost
  · have h1 : (reconcile_price tbl pid cost ts).2 = tbl := by
      unfold reconcile_price
      simp [hA]
    rw [h1]
    exact Or.inl hA
  · cases hF : tbl.find? (matchKey pid ts) with
    | some o =>
      by_cases hco : o.cost_per_unit = cost
      · have h1 : (reconcile_price tbl pid cost ts).2 = tbl := by
          unfold reconcile_price insert_product_price
          rw [hF]
          simp [hA, hco]
        rw [h1]
        exact Or.inr ⟨o, hF, hco⟩
      · have h1 : (reconcile_price tbl pid cost ts).2 =
            tbl.map (overwriteCost pid cost ts) := by
          unfold reconcile_price insert_product_price
          rw [hF]
          by_cases hN : get_latest_product_price tbl pid = none <;>
            simp [hA, hco, hN]
        rw [h1]
        refine Or.inr ⟨overwriteCost pid cost ts o, ?_, ?_⟩
        · rw [List.find?_map]
          have hpf : matchKey pid ts ∘ overwriteCost pid cost ts =
              matchKey pid ts :=
            funext (fun r => matchKey_overwriteCost pid cost ts r)
          rw [hpf, hF]
          rfl
        · have hkey : matchKey pid ts o = true := List.find?_some hF
          simp [overwriteCost, hkey]
    | none =>
      have h1 : (reconcile_price tbl pid cost ts).2 =
          tbl ++ [⟨pid, cost, ts⟩] := by
        unfold reconcile_price insert_product_price
        rw [hF]
        by_cases hN : get_latest_product_price tbl pid = none <;>
          simp [hA, hN]
      rw [h1]
      refine Or.inr ⟨⟨pid, cost, ts⟩, ?_, rfl⟩
      exact find?_append_singleton tbl _ hF (matchKey_self pid cost ts)

/-! ## C5: transactional atomicity and guaranteed release -/

/-- Executing body statements never touches the committed snapshot. -/
theorem execBody_committed {σ : Type} (fault : ℕ → Bool)
    (ops : List (σ → σ)) :
    ∀ (c : Conn σ) (k : ℕ),
      (execBody fault c k ops).1.committed = c.committed := by
  induction ops with
  | nil => intro c k; rfl
  | cons op rest ih =>
    intro c k
    unfold execBody
    by_cases hk : fault k = true <;> simp [hk]
    exact ih (execOp c op) (k + 1)

/-- If some statement of the body faults, the body reports failure. -/
theorem execBody_fault_fails {σ : Type} (fault : ℕ → Bool)
    (ops : List (σ → σ)) :
    ∀ (c : Conn σ) (k : ℕ),
      (∃ j, j < ops.length ∧ fault (k + j) = true) →
      (execBody fault c k ops).2 = false := by
  induction ops with
  | nil =>
    intro c k h
    rcases h with ⟨j, hj, _⟩
    exact absurd hj (by simp)
  | cons op rest ih =>
    intro c k h
    rcases h with ⟨j, hj, hf⟩
    unfold execBody
    by_cases hk : fault k = true
    · simp [hk]
    · rw [if_neg (by simp [hk])]
      apply ih
      cases j with
      | zero => rw [Nat.add_zero] at hf; exact absurd hf hk
      | succ i =>
        refine ⟨i, ?_, ?_⟩
        · simpa using Nat.lt_of_succ_lt_succ hj
        · rw [show k + 1 + i = k + (i + 1) by omega]
          exact hf

/-- For any run whose transaction body contains a faulting statement, the
run reports failure, the committed store is what it was before the run, and
the connection ends closed. -/
theorem run_import_tx_atomic {σ : Type} (db : σ) (ops : List (σ → σ))
    (fault : ℕ → Bool) (h : ∃ k, k < ops.length ∧ fault k = true) :
    (run_import_tx db ops fault).1 = false ∧
    (run_import_tx db ops fault).2.committed = db ∧
    (run_import_tx db ops fault).2.closed = true := by
  have hfail : (execBody fault (openConn db) 0 ops).2 = false := by
    apply execBody_fault_fails
    rcases h with ⟨k, hk, hfk⟩
    exact ⟨k, hk, by simpa using hfk⟩
  have hcom : (execBody fault (openConn db) 0 ops).1.committed = db :=
    execBody_committed fault ops (openConn db) 0
  refine ⟨?_, ?_, ?_⟩
  · unfold run_import_tx
    simp [hfail]
  · unfold run_import_tx
    simp [hfail, closeConn, rollbackConn, hcom]
  · unfold run_import_tx
    simp [hfail, closeConn]

/-- Whatever the fault oracle does, the connection ends closed. -/
theorem run_import_tx_closed {σ : Type} (db : σ) (ops : List (σ → σ))
    (g : ℕ → Bool) : (run_import_tx db ops g).2.closed = true := by
  unfold run_import_tx
  by_cases hg : (execBody g (openConn db) 0 ops).2 = true <;>
    simp [hg, closeConn]

/-- Folding the item-insert statements appends exactly the bill's items,
referencing the identifier the header insert returned. -/
theorem billItemOp_foldl (prepared : List PreparedItem) :
    ∀ db : BillDB,
      (prepared.map billItemOp).foldl (fun d op => op d) db =
        ⟨db.next_bill_id, db.bills,
          db.bill_items ++ prepared.map (fun it =>
            BillItem.mk (db.next_bill_id - 1) none it.product_name it.quantity
              none it.unit_price it.line_total)⟩ := by
  induction prepared with
  | nil => intro db; simp
  | cons it rest ih =>
    intro db
    rw [List.map_cons, List.foldl_cons, ih]
    simp [billItemOp]

/-- The bill ops list composes to exactly the state `import_bill` commits:
one header row and the items referencing its identifier. -/
theorem billOps_body (bill : Bill) (prepared : List PreparedItem)
    (db : BillDB) :
    (billOps bill prepared).foldl (fun d op => op d) db =
      ⟨db.next_bill_id + 1, db.bills ++ [(db.next_bill_id, bill)],
        db.bill_items ++ prepared.map (fun it =>
          BillItem.mk db.next_bill_id none it.product_name it.quantity none
            it.unit_price it.line_total)⟩ := by
  rw [billOps, List.foldl_cons, billItemOp_foldl]
  simp [billHeaderOp]

/-- One row's statements compose to exactly the state change of
`import_product_csv`'s loop body for that row. -/
theorem productRowOps_body (up : Bool) (ts : ℕ) (row : ProductRow)
    (db : ProductDB) :
    (productRowOps up ts row).foldl (fun d op => op d) db =
      (import_row up ts db row).2 := by
  cases up <;> cases hc : row.cost_per_unit <;>
    simp [productRowOps, import_row, hc, productUpsertOp, productPriceOp]

/-- The product ops list composes to exactly the loop `import_product_csv`
runs over the validated rows. -/
theorem productOps_body (up : Bool) (ts : ℕ) (rows : List ProductRow) :
    ∀ db : ProductDB,
      (productOps up ts rows).foldl (fun d op => op d) db =
        rows.foldl (fun acc row => (import_row up ts acc row).2) db := by
  induction rows with
  | nil => intro db; rfl
  | cons row rest ih =>
    intro db
    have h1 : productOps up ts (row :: rest) =
        productRowOps up ts row ++ productOps up ts rest := by
      simp [productOps]
    rw [h1, List.foldl_append, productRowOps_body, List.foldl_cons]
    exact ih _

/-- C5: for every run of either importer, if any store statement of the
transaction body fails, the run reports the re-raised failure, the
committed store is exactly what it was before the run (for a bill: zero
rows of that bill persist, header included; for a product run: no product
or price row of that run persists), and the connection ends closed; and on
every path, faulting or not, the connection ends closed. -/
theorem import_tx_rollback_atomic
    (bdb : BillDB) (bill : Bill) (prepared : List PreparedItem)
    (pdb : ProductDB) (up : Bool) (ts : ℕ) (rows : List ProductRow)
    (bfault pfault : ℕ → Bool)
    (hb : ∃ k, k < (billOps bill prepared).length ∧ bfault k = true)
    (hp : ∃ k, k < (productOps up ts rows).length ∧ pfault k = true) :
    ((run_import_tx bdb (billOps bill prepared) bfault).1 = false ∧
      (run_import_tx bdb (billOps bill prepared) bfault).2.committed = bdb ∧
      (run_import_tx bdb (billOps bill prepared) bfault).2.closed = true) ∧
    ((run_import_tx pdb (productOps up ts rows) pfault).1 = false ∧
      (run_import_tx pdb (productOps up ts rows) pfault).2.committed = pdb ∧
      (run_import_tx pdb (productOps up ts rows) pfault).2.closed = true) ∧
    (∀ g : ℕ → Bool,
      (run_import_tx bdb (billOps bill prepared) g).2.closed = true) ∧
    (∀ g : ℕ → Bool,
      (run_import_tx pdb (productOps up ts rows) g).2.closed = true) :=
  ⟨run_import_tx_atomic bdb (billOps bill prepared) bfault hb,
    run_import_tx_atomic pdb (productOps up ts rows) pfault hp,
    fun g => run_import_tx_closed bdb (billOps bill prepared) g,
    fun g => run_import_tx_closed pdb (productOps up ts rows) g⟩

/-- Witness for C5: a fault on the first statement of an itemless bill run
and of a one-row product run leaves both stores committed unchanged, with
both failures re-raised and both connections closed. -/
theorem import_tx_rollback_atomic_witness :
    (∃ k, k < (billOps ⟨none, none, "", none, "", 0, 0, 0, 0, none⟩ []).length ∧
      (fun _ : ℕ => true) k = true) ∧
    (∃ k, k < (productOps true 0 [⟨1, none, none, none, some 5⟩]).length ∧
      (fun _ : ℕ => true) k = true) ∧
    (run_import_tx ⟨0, [], []⟩
      (billOps ⟨none, none, "", none, "", 0, 0, 0, 0, none⟩ [])
      (fun _ => true)).1 = false ∧
    (run_import_tx ⟨0, [], []⟩
      (billOps ⟨none, none, "", none, "", 0, 0, 0, 0, none⟩ [])
      (fun _ => true)).2.committed = ⟨0, [], []⟩ ∧
    (run_import_tx ⟨[], []⟩
      (productOps true 0 [⟨1, none, none, none, some 5⟩])
      (fun _ => true)).1 = false ∧
    (run_import_tx ⟨[], []⟩
      (productOps true 0 [⟨1, none, none, none, some 5⟩])
      (fun _ => true)).2.committed = ⟨[], []⟩ ∧
    (run_import_tx ⟨[], []⟩
      (productOps true 0 [⟨1, none, none, none, some 5⟩])
      (fun _ => true)).2.closed = true := by
  have h := import_tx_rollback_atomic ⟨0, [], []⟩
    ⟨none, none, "", none, "", 0, 0, 0, 0, none⟩ [] ⟨[], []⟩ true 0
    [⟨1, none, none, none, some 5⟩] (fun _ => true) (fun _ => true)
    ⟨0, by decide, rfl⟩ ⟨0, by decide, rfl⟩
  exact ⟨⟨0, by decide, rfl⟩, ⟨0, by decide, rfl⟩, h.1.1, h.1.2.1,
    h.2.1.1, h.2.1.2.1, h.2.1.2.2⟩

/-! ## C4: bill totals and persisted rows -/

/-- The preparation fold computes the map-sums of its per-row quantities
from any starting accumulator. -/
theorem prepareStep_foldl (rows : List (List (String × String))) :
    ∀ (a b : ℚ) (l : List PreparedItem),
      rows.foldl prepareStep (a, b, l) =
        (a + (rows.map (fun r => parse_decimal (dictGet r "quantity") 0 *
            parse_decimal (dictGet r "product_price") 0)).sum,
          b + (rows.map (fun r => parse_decimal (dictGet r "tax_amount") 0)).sum,
          l ++ rows.map (fun r => (⟨dictGet r "product_name",
            parse_decimal (dictGet r "quantity") 0,
            parse_decimal (dictGet r "product_price") 0,
            parse_decimal (dictGet r "total") 0⟩ : PreparedItem))) := by
  induction rows with
  | nil => intro a b l; simp
  | cons r rest ih =>
    intro a b l
    rw [List.foldl_cons]
    show rest.foldl prepareStep (prepareStep (a, b, l) r) = _
    rw [prepareStep, ih]
    simp [add_assoc]

/-- `prepare_bill_items` in closed form. -/
theorem prepare_bill_items_eq (rows : List (List (String × String))) :
    prepare_bill_items rows =
      ((rows.map (fun r => parse_decimal (dictGet r "quantity") 0 *
          parse_decimal (dictGet r "product_price") 0)).sum,
        (rows.map (fun r => parse_decimal (dictGet r "tax_amount") 0)).sum,
        rows.map (fun r => (⟨dictGet r "product_name",
          parse_decimal (dictGet r "quantity") 0,
          parse_decimal (dictGet r "product_price") 0,
          parse_decimal (dictGet r "total") 0⟩ : PreparedItem))) := by
  rw [prepare_bill_items, prepareStep_foldl]
  simp

/-- C4: on a successful read, the persisted bill header carries
`subtotal = Σ quantity * unit_price`, `tax = Σ tax_amount` and
`total = subtotal + tax + shipping`, and each persisted item keeps the
row's own `total` cell as its line total (never `quantity * unit_price`). -/
theorem import_bill_totals (csv : Csv) (path : String)
    (vn nts : Option String) (ship : ℚ) (cur : String)
    (bn bd bsrc : Option String) (db : BillDB)
    (rows : List (List (String × String)))
    (hread : read_bill_csv csv = .ok rows) :
    import_bill csv path vn nts ship cur bn bd bsrc db =
      (.ok (rows.length,
        (rows.map (fun r => parse_decimal (dictGet r "quantity") 0 *
          parse_decimal (dictGet r "product_price") 0)).sum,
        (rows.map (fun r => parse_decimal (dictGet r "tax_amount") 0)).sum,
        (rows.map (fun r => parse_decimal (dictGet r "quantity") 0 *
          parse_decimal (dictGet r "product_price") 0)).sum +
          (rows.map (fun r => parse_decimal (dictGet r "tax_amount") 0)).sum +
          ship),
      ⟨db.next_bill_id + 1,
        db.bills ++ [(db.next_bill_id,
          ⟨bn, vn,
            (match bsrc with
              | some s => if s = "" then path else s
              | none => path),
            bd, cur,
            (rows.map (fun r => parse_decimal (dictGet r "quantity") 0 *
              parse_decimal (dictGet r "product_price") 0)).sum,
            (rows.map (fun r => parse_decimal (dictGet r "tax_amount") 0)).sum,
            ship,
            (rows.map (fun r => parse_decimal (dictGet r "quantity") 0 *
              parse_decimal (dictGet r "product_price") 0)).sum +
              (rows.map (fun r =>
                parse_decimal (dictGet r "tax_amount") 0)).sum + ship,
            nts⟩)],
        db.bill_items ++ rows.map (fun r =>
          ⟨db.next_bill_id, none, dictGet r "product_name",
            parse_decimal (dictGet r "quantity") 0, none,
            parse_decimal (dictGet r "product_price") 0,
            parse_decimal (dictGet r "total") 0⟩)⟩) := by
  unfold import_bill
  rw [hread]
  simp [prepare_bill_items_eq, List.map_map, Function.comp]

/-- Witness for C4 on the specification's example bill with shipping 3:
subtotal 25, tax 1.50, grand total 29.50, and both items keep their given
line totals. -/
theorem import_bill_totals_witness :
    read_bill_csv exampleBillCsv = .ok exampleBillCsv.rows ∧
    import_bill exampleBillCsv "f.csv" none none 3 "USD" none none none
        ⟨0, [], []⟩ =
      (.ok (exampleBillCsv.rows.length, exampleSubtotal, exampleTaxSum,
        exampleSubtotal + exampleTaxSum + 3),
      ⟨1,
        [(0, ⟨none, none, "f.csv", none, "USD", exampleSubtotal,
          exampleTaxSum, 3, exampleSubtotal + exampleTaxSum + 3, none⟩)],
        exampleBillCsv.rows.map (fun r =>
          ⟨0, none, dictGet r "product_name",
            parse_decimal (dictGet r "quantity") 0, none,
            parse_decimal (dictGet r "product_price") 0,
            parse_decimal (dictGet r "total") 0⟩)⟩) ∧
    exampleSubtotal = 25 ∧ exampleTaxSum = 3 / 2 ∧
    (exampleBillCsv.rows.map (fun r => parse_decimal (dictGet r "total") 0)) =
      [20, 5] := by
  have h2 : parse_decimal (some "2") 0 = 2 := by
    have e1 : removeCommas (pyStrip "2") = "2" := by decide
    have e2 : decFromString "2" = some (1 * ((digitsVal ['2'] : ℕ) : ℚ)) := rfl
    have e3 : digitsVal ['2'] = 2 := by decide
    simp [parse_decimal, e1, e2, e3]
  have h1 : parse_decimal (some "1") 0 = 1 := by
    have e1 : removeCommas (pyStrip "1") = "1" := by decide
    have e2 : decFromString "1" = some (1 * ((digitsVal ['1'] : ℕ) : ℚ)) := rfl
    have e3 : digitsVal ['1'] = 1 := by decide
    simp [parse_decimal, e1, e2, e3]
  have h10 : parse_decimal (some "10.00") 0 = 10 := by
    have e1 : removeCommas (pyStrip "10.00") = "10.00" := by decide
    have e2 : decFromString "10.00" =
        some (1 * (((digitsVal ['1', '0'] : ℕ) : ℚ) +
          ((digitsVal ['0', '0'] : ℕ) : ℚ) / 10 ^ 2)) := rfl
    have e3 : digitsVal ['1', '0'] = 10 := by decide
    have e4 : digitsVal ['0', '0'] = 0 := by decide
    simp [parse_decimal, e1, e2, e3, e4]
  have h5 : parse_decimal (some "5.00") 0 = 5 := by
    have e1 : removeCommas (pyStrip "5.00") = "5.00" := by decide
    have e2 : decFromString "5.00" =
        some (1 * (((digitsVal ['5'] : ℕ) : ℚ) +
          ((digitsVal ['0', '0'] : ℕ) : ℚ) / 10 ^ 2)) := rfl
    have e3 : digitsVal ['5'] = 5 := by decide
    have e4 : digitsVal ['0', '0'] = 0 := by decide
    simp [parse_decimal, e1, e2, e3, e4]
  have h100 : parse_decimal (some "1.00") 0 = 1 := by
    have e1 : removeCommas (pyStrip "1.00") = "1.00" := by decide
    have e2 : decFromString "1.00" =
        some (1 * (((digitsVal ['1'] : ℕ) : ℚ) +
          ((digitsVal ['0', '0'] : ℕ) : ℚ) / 10 ^ 2)) := rfl
    have e3 : digitsVal ['1'] = 1 := by decide
    have e4 : digitsVal ['0', '0'] = 0 := by decide
    simp [parse_decimal, e1, e2, e3, e4]
  have h050 : parse_decimal (some "0.50") 0 = 1 / 2 := by
    have e1 : removeCommas (pyStrip "0.50") = "0.50" := by decide
    have e2 : decFromString "0.50" =
        some (1 * (((digitsVal ['0'] : ℕ) : ℚ) +
          ((digitsVal ['5', '0'] : ℕ) : ℚ) / 10 ^ 2)) := rfl
    have e3 : digitsVal ['0'] = 0 := by decide
    have e4 : digitsVal ['5', '0'] = 50 := by decide
    rw [parse_decimal, if_neg (by decide), e1, if_neg (by decide), e2, e3, e4]
    norm_num
  have h20 : parse_decimal (some "20.00") 0 = 20 := by
    have e1 : removeCommas (pyStrip "20.00") = "20.00" := by decide
    have e2 : decFromString "20.00" =
        some (1 * (((digitsVal ['2', '0'] : ℕ) : ℚ) +
          ((digitsVal ['0', '0'] : ℕ) : ℚ) / 10 ^ 2)) := rfl
    have e3 : digitsVal ['2', '0'] = 20 := by decide
    have e4 : digitsVal ['0', '0'] = 0 := by decide
    simp [parse_decimal, e1, e2, e3, e4]
  have hread : read_bill_csv exampleBillCsv = .ok exampleBillCsv.rows := by
    rfl
  refine ⟨hread,
    import_bill_totals exampleBillCsv "f.csv" none none 3 "USD" none none
      none ⟨0, [], []⟩ exampleBillCsv.rows hread, ?_, ?_, ?_⟩
  · unfold exampleSubtotal exampleBillCsv
    simp [dictGet, h2, h1, h10, h5]
    norm_num
  · unfold exampleTaxSum exampleBillCsv
    simp [dictGet, h100, h050]
    norm_num
  · unfold exampleBillCsv
    simp [dictGet, h20, h5]

/-! ## C10: malformed cost cells silently become zero -/

/-- C10: a present, non-blank, malformed cost cell does not skip the row:
the validated row carries cost 0 (the normalizer's default), the import
step reconciles a zero-cost observation into the price history, and that
reconciliation is a no-op signalled "unchanged" exactly when the product's
latest price is already 0. -/
theorem malformed_cost_reconciled_as_zero (r : List (String × String))
    (s : String) (pid : ℤ)
    (hc : dictGet (rowDict r) "cost_per_unit" = some (some s))
    (hbad : decFromString (removeCommas (pyStrip s)) = none)
    (hpid : pyInt ((dictGet (rowDict r) "product_id").join) = some pid) :
    parseProductRow r = some ⟨pid, (dictGet (rowDict r) "product_name").join,
      (dictGet (rowDict r) "source").join, (dictGet (rowDict r) "unit").join,
      some 0⟩ ∧
    (∀ (db : ProductDB) (ts : ℕ),
      import_row true ts db ⟨pid, (dictGet (rowDict r) "product_name").join,
        (dictGet (rowDict r) "source").join, (dictGet (rowDict r) "unit").join,
        some 0⟩ =
      ((reconcile_price db.prices pid 0 ts).1,
        ⟨upsert_product db.products ⟨pid,
          (dictGet (rowDict r) "product_name").join,
          (dictGet (rowDict r) "source").join,
          (dictGet (rowDict r) "unit").join⟩,
          (reconcile_price db.prices pid 0 ts).2⟩)) ∧
    (∀ (tbl : List PriceObservation) (ts : ℕ),
      get_latest_product_price tbl pid = some 0 →
      reconcile_price tbl pid 0 ts = (PriceSignal.unchanged, tbl)) := by
  have hzero : parse_decimal (some s) 0 = 0 :=
    parse_decimal_default_of_fail s 0 hbad
  refine ⟨?_, ?_, ?_⟩
  · simp only [parseProductRow, hpid, hc, hzero]
  · intro db ts
    rfl
  · intro tbl ts h
    unfold reconcile_price
    simp [h]

/-- Witness for C10 on a concrete row with cost cell "garbage". -/
theorem malformed_cost_reconciled_as_zero_witness :
    dictGet (rowDict malformedCostRow) "cost_per_unit" =
      some (some "garbage") ∧
    decFromString (removeCommas (pyStrip "garbage")) = none ∧
    pyInt ((dictGet (rowDict malformedCostRow) "product_id").join) = some 7 ∧
    parseProductRow malformedCostRow =
      some ⟨7, (dictGet (rowDict malformedCostRow) "product_name").join,
        (dictGet (rowDict malformedCostRow) "source").join,
        (dictGet (rowDict malformedCostRow) "unit").join, some 0⟩ ∧
    parseProductRow malformedCostRow = some ⟨7, some "x", none, none, some 0⟩ :=
  ⟨by decide, by decide, by decide,
    (malformed_cost_reconciled_as_zero malformedCostRow "garbage" 7
      (by decide) (by decide) (by decide)).1,
    by decide⟩

end FriendOfRestaurant
